import Mathlib

/-!
Verification development for a Textract-JSON-to-hOCR converter.

The converter takes a flat list of typed, geometrically annotated blocks
(PAGE, LINE, WORD, TABLE, CELL) and re-renders them as nested hOCR markup.
This file gives a shallow embedding of the converter module:

* Python floats carrying normalized 0-1 coordinates are modelled as `ℚ`;
* Python `int(x)` (truncation toward zero) is `pyInt`;
* Python dicts (insertion-ordered, keyed maps) are association lists with
  `dictSet` / `dictGet`; `dictSet` updates a present key in place and
  otherwise appends, exactly like a Python dict assignment;
* Python `list.sort` / `sorted` (a stable ascending sort) is `stableSort`,
  a stable insertion sort on a strict comparator;
* raising `KeyError` / `IndexError` is the `Except RunErr` monad; raising
  `ValueError` in the page-range validation is the dedicated constructors
  of `PyError`;
* the yattag markup builder is modelled by the `HNode` tree: the emitted
  body is a list of page nodes (doctype and head metadata are constant
  strings in the source and are not modelled);
* the PIL / PyPDF2 file probing done by `get_document_dimensions` is
  modelled by a `FileContent` oracle describing what the referenced file
  turns out to be (image, paginated document, or unreadable).
-/

/-- Truncation toward zero of a rational, Python `int(x)`. -/
def pyInt (q : ℚ) : ℤ := q.num.tdiv q.den

/-- Normalized bounding box, the `Geometry.BoundingBox` payload. -/
structure BBox where
  left : ℚ
  top : ℚ
  width : ℚ
  height : ℚ
deriving DecidableEq

/-- One polygon point, the `Geometry.Polygon` entries. -/
structure Pt where
  x : ℚ
  y : ℚ
deriving DecidableEq

/-- One relationship record: a kind tag and an ordered id list. -/
structure Relationship where
  type : String
  ids : List String
deriving DecidableEq

/-- The `Geometry` payload of a block. -/
structure Geometry where
  boundingBox : BBox
  polygon : List Pt
deriving DecidableEq

/-- A Textract block.  Optional fields are `Option`: `none` models the key
being absent from the JSON dict, so that a direct `block[key]` access on a
missing key can raise while `block.get(key, default)` substitutes. -/
structure Block where
  blockType : String
  id : String
  page : Option ℕ
  text : Option String
  confidence : Option ℚ
  textType : Option String
  geometry : Option Geometry
  relationships : Option (List Relationship)
  rowIndex : Option ℕ
  columnIndex : Option ℕ
  rowSpan : Option ℕ
  columnSpan : Option ℕ
deriving DecidableEq

/-- Input document: `DocumentMetadata.Pages` plus the flat block list. -/
structure Document where
  totalPages : ℕ
  blocks : List Block
deriving DecidableEq

/-- Page dimensions in pixels (Python ints). -/
structure Dims where
  width : ℤ
  height : ℤ
deriving DecidableEq

/-- Runtime errors of the conversion body (Python `KeyError` and
`IndexError`). -/
inductive RunErr where
  | keyError (key : String)
  | indexError (what : String)
deriving DecidableEq

/-- All errors `textract_to_hocr` can raise: the three `ValueError`s of the
page-range validation (each naming the offending bounds) or a runtime
error from the conversion body. -/
inductive PyError where
  | firstPageOutOfRange (first totalPages : ℕ)
  | lastPageOutOfRange (last totalPages : ℕ)
  | firstGreaterThanLast (first last : ℕ)
  | runtime (e : RunErr)
deriving DecidableEq

/-- Required dict access `o[key]`: raises `KeyError` when absent. -/
def req {α : Type} (o : Option α) (key : String) : Except RunErr α :=
  match o with
  | some a => Except.ok a
  | none => Except.error (RunErr.keyError key)

/-- The `[... for i in range(4)]` polygon copy: takes the first four points
and raises `IndexError` when fewer are present. -/
def poly4 (ps : List Pt) : Except RunErr (List Pt) :=
  if 4 ≤ ps.length then Except.ok (ps.take 4)
  else Except.error (RunErr.indexError ("Polygon"))

/-- Python dict assignment `m[k] = v`: replaces in place when the key is
present (keeping its position), otherwise appends. -/
def dictSet {κ α : Type} [BEq κ] (m : List (κ × α)) (k : κ) (v : α) :
    List (κ × α) :=
  if (m.find? (fun p => p.1 == k)).isSome then
    m.map (fun p => if p.1 == k then (k, v) else p)
  else m ++ [(k, v)]

/-- Python dict lookup returning `none` when the key is absent. -/
def dictGet {κ α : Type} [BEq κ] (m : List (κ × α)) (k : κ) : Option α :=
  (m.find? (fun p => p.1 == k)).map (fun p => p.2)

/-- Python `set.add`: only membership of these id sets is ever observed. -/
def addId (s : List String) (i : String) : List String :=
  if s.contains i then s else s ++ [i]

/-- First pass shared by all three conversion paths: walk every in-scope
TABLE block, resolve its CELL children (first block matching the id with
type CELL), and classify each direct cell child found in the block list as
a table-owned LINE id or a table-owned WORD id.  `scope` is the page
filter: trivial in the single-page and full multi-page paths, a page-range
check in the explicit range path. -/
def collect_table_ids (blocks : List Block) (scope : Block → Bool) :
    List String × List String :=
  blocks.foldl
    (fun acc block =>
      if scope block && block.blockType == "TABLE" then
        match block.relationships with
        | some rels =>
          rels.foldl
            (fun acc rel =>
              if rel.type == "CHILD" then
                rel.ids.foldl
                  (fun acc cellId =>
                    match blocks.find?
                        (fun b => b.id == cellId && b.blockType == "CELL") with
                    | some cellBlock =>
                      match cellBlock.relationships with
                      | some cellRels =>
                        cellRels.foldl
                          (fun acc cellRel =>
                            if cellRel.type == "CHILD" then
                              cellRel.ids.foldl
                                (fun acc childId =>
                                  match blocks.find? (fun b => b.id == childId) with
                                  | some child =>
                                    if child.blockType == "LINE" then
                                      (addId acc.1 childId, acc.2)
                                    else if child.blockType == "WORD" then
                                      (acc.1, addId acc.2 childId)
                                    else acc
                                  | none => acc)
                                acc
                            else acc)
                          acc
                      | none => acc
                    | none => acc)
                  acc
              else acc)
            acc
        | none => acc
      else acc)
    ([], [])

/-- Second half of the first pass: any LINE block one of whose CHILD ids
lies in the table-owned word set has its own id added to the table-owned
line set. -/
def reclassify_table_lines (blocks : List Block) (tableWordIds : List String)
    (tableLineIds : List String) : List String :=
  blocks.foldl
    (fun tl block =>
      if block.blockType == "LINE" && block.relationships.isSome then
        (block.relationships.getD []).foldl
          (fun tl rel =>
            if rel.type == "CHILD" then
              if rel.ids.any (fun w => tableWordIds.contains w) then
                addId tl block.id
              else tl
            else tl)
          tl
      else tl)
    tableLineIds

/-- Word record stored under a line (`_add_line_block` inner dict).  All
fields are required accesses in the source. -/
structure WordData where
  blockType : String
  confidence : ℚ
  text : String
  textType : String
  boundingBox : BBox
  polygon : List Pt
deriving DecidableEq

/-- Line record (`_add_line_block` outer dict); `words` is the
insertion-ordered `Words` dict. -/
structure LineData where
  blockType : String
  confidence : ℚ
  text : String
  boundingBox : BBox
  polygon : List Pt
  words : List (String × WordData)
deriving DecidableEq

/-- Inlined word entry of a cell (`words_data` in `_add_table_block`):
text is a required access, confidence and text type default (100 and
PRINTED), and the polygon is copied whole. -/
structure CellWord where
  id : String
  text : String
  confidence : ℚ
  textType : String
  boundingBox : BBox
  polygon : List Pt
deriving DecidableEq

/-- Cell record of a table (`Cells` entries in `_add_table_block`). -/
structure CellData where
  blockType : String
  confidence : ℚ
  rowIndex : ℕ
  columnIndex : ℕ
  rowSpan : ℕ
  columnSpan : ℕ
  lineIds : List String
  words : List CellWord
  boundingBox : BBox
  polygon : List Pt
deriving DecidableEq

/-- Table record (`_add_table_block` outer dict). -/
structure TableData where
  blockType : String
  confidence : ℚ
  boundingBox : BBox
  polygon : List Pt
  cells : List (String × CellData)
deriving DecidableEq

/-- Per-page accumulation: the `lines` dict (whose values may be the empty
placeholder dict `\x7b\x7d`, modelled as `none`) and the `tables` dict. -/
structure PageData where
  lines : List (String × Option LineData)
  tables : List (String × TableData)
deriving DecidableEq

/-- What the optional source file turns out to contain, the oracle for the
PIL / PyPDF2 probing in `get_document_dimensions`: an image with a native
pixel size, a paginated document whose pages have media-box sizes in
points, or a file neither library can read. -/
inductive FileContent where
  | image (w h : ℤ)
  | pdf (pages : List (ℚ × ℚ))
  | unreadable
deriving DecidableEq

/-- Textract reports coordinates against a normalized 1000-unit space. -/
def TEXTRACT_DEFAULT_WIDTH : ℤ := 1000

/-- Height counterpart of `TEXTRACT_DEFAULT_WIDTH`. -/
def TEXTRACT_DEFAULT_HEIGHT : ℤ := 1000

/-- Dimension resolver `get_document_dimensions`: explicit override wins;
no file means defaults; an image yields its native size; a paginated
document (when the reader library imported) yields the media-box size of
the requested page truncated to ints if the page number is within range;
every failure falls through to the 1000 by 1000 default.  Exceptions of
both probing libraries are caught in the source, so the model is total. -/
def get_document_dimensions (file_path : Option FileContent) (page_number : ℕ)
    (dimensions : Option Dims) (pdfReaderAvailable : Bool) : Dims :=
  match dimensions with
  | some d => d
  | none =>
    match file_path with
    | none => { width := TEXTRACT_DEFAULT_WIDTH, height := TEXTRACT_DEFAULT_HEIGHT }
    | some fc =>
      match fc with
      | FileContent.image w h => { width := w, height := h }
      | FileContent.pdf pages =>
        if pdfReaderAvailable then
          if page_number ≤ pages.length then
            let p := pages.getD (page_number - 1) (0, 0)
            { width := pyInt p.1, height := pyInt p.2 }
          else { width := TEXTRACT_DEFAULT_WIDTH, height := TEXTRACT_DEFAULT_HEIGHT }
        else { width := TEXTRACT_DEFAULT_WIDTH, height := TEXTRACT_DEFAULT_HEIGHT }
      | FileContent.unreadable =>
        { width := TEXTRACT_DEFAULT_WIDTH, height := TEXTRACT_DEFAULT_HEIGHT }

/-- Word loop of `_add_line_block`: for each id of the line's first
relationship, the first block with that id is looked up (no type check in
the source) and its required fields are read into the `Words` dict. -/
def line_words (all_blocks : List Block) : List String →
    List (String × WordData) → Except RunErr (List (String × WordData))
  | [], acc => Except.ok acc
  | wid :: rest, acc =>
    match all_blocks.find? (fun b => b.id == wid) with
    | none => line_words all_blocks rest acc
    | some wb => do
      let conf ← req wb.confidence ("Confidence")
      let txt ← req wb.text ("Text")
      let tt ← req wb.textType ("TextType")
      let geom ← req wb.geometry ("Geometry")
      let poly ← poly4 geom.polygon
      line_words all_blocks rest
        (dictSet acc wid
          { blockType := wb.blockType, confidence := conf, text := txt,
            textType := tt, boundingBox := geom.boundingBox, polygon := poly })

/-- The `_add_line_block` builder: required Confidence, Text and Geometry
accesses, then the word loop over the first relationship (if any
relationships are present and non-empty). -/
def add_line_block (page_lines : List (String × Option LineData))
    (line_block : Block) (all_blocks : List Block) :
    Except RunErr (List (String × Option LineData)) := do
  let conf ← req line_block.confidence ("Confidence")
  let txt ← req line_block.text ("Text")
  let geom ← req line_block.geometry ("Geometry")
  let poly ← poly4 geom.polygon
  let ws ← match line_block.relationships with
    | some (r0 :: _) => line_words all_blocks r0.ids []
    | _ => Except.ok []
  Except.ok
    (dictSet page_lines line_block.id
      (some { blockType := line_block.blockType, confidence := conf, text := txt,
              boundingBox := geom.boundingBox, polygon := poly, words := ws }))

/-- Child loop of a cell in `_add_table_block`: LINE children contribute
their id to `line_ids`, WORD children are inlined as `words_data` records
(required Text and Geometry, defaulted Confidence and TextType), anything
else is ignored; an id with no matching block is skipped. -/
def cell_child_data (all_blocks : List Block) : List String →
    List String × List CellWord → Except RunErr (List String × List CellWord)
  | [], acc => Except.ok acc
  | cid :: rest, acc =>
    match all_blocks.find? (fun b => b.id == cid) with
    | none => cell_child_data all_blocks rest acc
    | some cb =>
      if cb.blockType == "LINE" then
        cell_child_data all_blocks rest (acc.1 ++ [cid], acc.2)
      else if cb.blockType == "WORD" then do
        let txt ← req cb.text ("Text")
        let geom ← req cb.geometry ("Geometry")
        cell_child_data all_blocks rest
          (acc.1,
           acc.2 ++ [{ id := cid, text := txt, confidence := cb.confidence.getD 100,
                       textType := cb.textType.getD ("PRINTED"),
                       boundingBox := geom.boundingBox, polygon := geom.polygon }])
      else cell_child_data all_blocks rest acc

/-- Relationship loop over a cell's relationships (only CHILD is read). -/
def cell_rels_children (all_blocks : List Block) : List Relationship →
    List String × List CellWord → Except RunErr (List String × List CellWord)
  | [], acc => Except.ok acc
  | r :: rest, acc =>
    if r.type == "CHILD" then do
      let acc2 ← cell_child_data all_blocks r.ids acc
      cell_rels_children all_blocks rest acc2
    else cell_rels_children all_blocks rest acc

/-- Cell loop of `_add_table_block`: each cell id resolves to the first
block matching the id with type CELL (or is skipped); indices default to 0
and spans to 1 when absent; the cell record is written into the `Cells`
dict. -/
def table_cells (all_blocks : List Block) : List String →
    List (String × CellData) → Except RunErr (List (String × CellData))
  | [], acc => Except.ok acc
  | cellId :: rest, acc =>
    match all_blocks.find? (fun b => b.id == cellId && b.blockType == "CELL") with
    | none => table_cells all_blocks rest acc
    | some cellBlock => do
      let children ← match cellBlock.relationships with
        | some cellRels => cell_rels_children all_blocks cellRels ([], [])
        | none => Except.ok ([], [])
      let geom ← req cellBlock.geometry ("Geometry")
      let poly ← poly4 geom.polygon
      table_cells all_blocks rest
        (dictSet acc cellId
          { blockType := cellBlock.blockType,
            confidence := cellBlock.confidence.getD 100,
            rowIndex := cellBlock.rowIndex.getD 0,
            columnIndex := cellBlock.columnIndex.getD 0,
            rowSpan := cellBlock.rowSpan.getD 1,
            columnSpan := cellBlock.columnSpan.getD 1,
            lineIds := children.1, words := children.2,
            boundingBox := geom.boundingBox, polygon := poly })

/-- Relationship loop over a table's relationships (only CHILD is read). -/
def table_rels_cells (all_blocks : List Block) : List Relationship →
    List (String × CellData) → Except RunErr (List (String × CellData))
  | [], acc => Except.ok acc
  | r :: rest, acc =>
    if r.type == "CHILD" then do
      let acc2 ← table_cells all_blocks r.ids acc
      table_rels_cells all_blocks rest acc2
    else table_rels_cells all_blocks rest acc

/-- The `_add_table_block` builder: required Geometry access, defaulted
Confidence, then the cell loop when relationships are present and
non-empty. -/
def add_table_block (page_tables : List (String × TableData))
    (table_block : Block) (all_blocks : List Block) :
    Except RunErr (List (String × TableData)) := do
  let geom ← req table_block.geometry ("Geometry")
  let poly ← poly4 geom.polygon
  let cells ← match table_block.relationships with
    | some (r0 :: rs) => table_rels_cells all_blocks (r0 :: rs) []
    | _ => Except.ok []
  Except.ok
    (dictSet page_tables table_block.id
      { blockType := table_block.blockType,
        confidence := table_block.confidence.getD 100,
        boundingBox := geom.boundingBox, polygon := poly, cells := cells })

/-- Pixel bounding box: four ints as emitted in `title` attributes. -/
structure PxBox where
  left : ℤ
  top : ℤ
  right : ℤ
  bottom : ℤ
deriving DecidableEq

/-- The pixel conversion applied to every rendered geometric element:
`int(left*w), int(top*h), int((left+width)*w), int((top+height)*h)`. -/
def bboxPx (b : BBox) (w h : ℤ) : PxBox :=
  { left := pyInt (b.left * w), top := pyInt (b.top * h),
    right := pyInt ((b.left + b.width) * w),
    bottom := pyInt ((b.top + b.height) * h) }

/-- The emitted markup tree: one constructor per element the renderer can
produce (page container, paragraph block, table, line, word), each holding
the data its attributes encode. -/
inductive HNode where
  | page (pageNum : ℕ) (width height : ℤ) (children : List HNode)
  | block (blockCounter pageNum : ℕ) (box : PxBox) (children : List HNode)
  | table (id : String) (box : PxBox) (conf : ℤ) (children : List HNode)
  | line (id : String) (box : PxBox) (children : List HNode)
  | word (id : String) (box : PxBox) (conf : ℤ) (text : String)

/-- The `_add_word_content` renderer: one word span with pixel box and
truncated confidence. -/
def add_word_content (word_id : String) (wd : WordData) (w h : ℤ) : HNode :=
  HNode.word word_id (bboxPx wd.boundingBox w h) (pyInt wd.confidence) wd.text

/-- The `_add_line_content` renderer: a line span wrapping its `Words`
dict in insertion order. -/
def add_line_content (line_id : String) (ld : LineData) (w h : ℤ) : HNode :=
  HNode.line line_id (bboxPx ld.boundingBox w h)
    (ld.words.map (fun p => add_word_content p.1 p.2 w h))

/-- Stable insertion placing `x` after every element strictly below it,
and before the first element not strictly below it. -/
def insOrd {α : Type} (lt : α → α → Bool) (x : α) : List α → List α
  | [] => [x]
  | y :: ys => if lt y x then y :: insOrd lt x ys else x :: y :: ys

/-- Stable ascending sort on a strict comparator, the model of Python
`list.sort` / `sorted`: elements comparing equal keep source order. -/
def stableSort {α : Type} (lt : α → α → Bool) (l : List α) : List α :=
  l.foldr (insOrd lt) []

/-- The `_bboxes_intersect` test: open-interval overlap of the vertical
extents `[top, top+height)`. -/
def bboxes_intersect (bbox1 bbox2 : BBox) : Bool :=
  decide (bbox1.top < bbox2.top + bbox2.height) &&
  decide (bbox1.top + bbox1.height > bbox2.top)

/-- The `_add_block_with_lines` renderer: a paragraph block whose pixel
box is the truncated union of its (non-empty list of) member lines'
normalized boxes, wrapping the rendered lines. -/
def add_block_with_lines (block_counter page_num : ℕ)
    (l0 : String × LineData) (rest : List (String × LineData)) (w h : ℤ) :
    HNode :=
  let min_left := rest.foldl (fun m p => min m p.2.boundingBox.left)
    l0.2.boundingBox.left
  let min_top := rest.foldl (fun m p => min m p.2.boundingBox.top)
    l0.2.boundingBox.top
  let max_right := rest.foldl
    (fun m p => max m (p.2.boundingBox.left + p.2.boundingBox.width))
    (l0.2.boundingBox.left + l0.2.boundingBox.width)
  let max_bottom := rest.foldl
    (fun m p => max m (p.2.boundingBox.top + p.2.boundingBox.height))
    (l0.2.boundingBox.top + l0.2.boundingBox.height)
  HNode.block block_counter page_num
    { left := pyInt (min_left * w), top := pyInt (min_top * h),
      right := pyInt (max_right * w), bottom := pyInt (max_bottom * h) }
    ((l0 :: rest).map (fun p => add_line_content p.1 p.2 w h))

/-- Rendering of a cell's LINE children inside `_add_table_content`: ids
absent from the page's lines dict are skipped; an id mapped to the empty
placeholder dict raises on the `BoundingBox` access inside
`_add_line_content`. -/
def cell_lines_render (all_lines : List (String × Option LineData))
    (w h : ℤ) : List String → Except RunErr (List HNode)
  | [] => Except.ok []
  | lid :: rest =>
    match dictGet all_lines lid with
    | none => cell_lines_render all_lines w h rest
    | some none => Except.error (RunErr.keyError ("BoundingBox"))
    | some (some ld) => do
      let r ← cell_lines_render all_lines w h rest
      Except.ok (add_line_content lid ld w h :: r)

/-- Per-cell body of `_add_table_content`: render the cell's LINE children
from the page's lines dict, and append the synthetic line wrapping the
cell's inlined words exactly when words are present and no LINE child
is. -/
def render_cell (all_lines : List (String × Option LineData)) (w h : ℤ)
    (cell_id : String) (cd : CellData) : Except RunErr (List HNode) := do
  let lineNodes ← cell_lines_render all_lines w h cd.lineIds
  if !cd.words.isEmpty && cd.lineIds.isEmpty then
    Except.ok (lineNodes ++
      [HNode.line (cell_id ++ ("_line")) (bboxPx cd.boundingBox w h)
        (cd.words.map (fun wd =>
          HNode.word wd.id (bboxPx wd.boundingBox w h) (pyInt wd.confidence)
            wd.text))])
  else Except.ok lineNodes

/-- Cell loop of `_add_table_content` over the row-major sorted cells. -/
def cells_render (all_lines : List (String × Option LineData)) (w h : ℤ) :
    List (String × CellData) → Except RunErr (List HNode)
  | [] => Except.ok []
  | c :: rest => do
    let ns ← render_cell all_lines w h c.1 c.2
    let rs ← cells_render all_lines w h rest
    Except.ok (ns ++ rs)

/-- Strict row-major order on cells, the key used by the `sorted` call in
`_add_table_content`. -/
def cellLt (a b : String × CellData) : Bool :=
  decide (a.2.rowIndex < b.2.rowIndex) ||
  (a.2.rowIndex == b.2.rowIndex && decide (a.2.columnIndex < b.2.columnIndex))

/-- The `_add_table_content` renderer: a table element (pixel box and
truncated confidence) wrapping the rendering of its cells sorted by row
then column. -/
def add_table_content (table_id : String) (td : TableData) (w h : ℤ)
    (all_lines : List (String × Option LineData)) : Except RunErr HNode := do
  let children ← cells_render all_lines w h (stableSort cellLt td.cells)
  Except.ok
    (HNode.table table_id (bboxPx td.boundingBox w h) (pyInt td.confidence)
      children)

/-- One entry of `content_items`: a table or a free line with its data. -/
inductive Item where
  | tbl (id : String) (td : TableData)
  | lin (id : String) (ld : LineData)
deriving DecidableEq

/-- The sort key of a content item: the top coordinate of its box. -/
def Item.top : Item → ℚ
  | Item.tbl _ td => td.boundingBox.top
  | Item.lin _ ld => ld.boundingBox.top

/-- Strict comparison by top coordinate, the key of the content sort. -/
def itemLt (a b : Item) : Bool := decide (a.top < b.top)

/-- Render-time table-line id set in `_add_page_content`: the union of the
`LineIds` of all cells of all tables of the page. -/
def render_table_line_ids (tables : List (String × TableData)) :
    List String :=
  tables.foldl
    (fun acc t => t.2.cells.foldl (fun acc c => acc ++ c.2.lineIds) acc) []

/-- Collection and sorting of `content_items` in `_add_page_content`:
every table, then every line that is neither an empty placeholder nor in
the render-time table-line set, sorted stably and ascending by top
coordinate. -/
def content_items (pd : PageData) : List Item :=
  let tlids := render_table_line_ids pd.tables
  let titems := pd.tables.map (fun t => Item.tbl t.1 t.2)
  let litems := pd.lines.foldl
    (fun acc l =>
      match l.2 with
      | some ld => if !(tlids.contains l.1) then acc ++ [Item.lin l.1 ld] else acc
      | none => acc)
    []
  stableSort itemLt (titems ++ litems)

/-- The grouping walk of `_add_page_content` over the sorted content
items, carrying the open paragraph block (`current_block_lines`), the
block counter, and the box of the last free line (`last_line_bbox`,
`none` initially and after each table).  A table flushes the open block,
is emitted atomically, and resets the box tracking; a free line starts a
new block exactly when tracking is live and its box does not intersect
the tracked one. -/
def page_items_loop (all_lines : List (String × Option LineData))
    (w h : ℤ) (page_num : ℕ) : List Item → List (String × LineData) → ℕ →
    Option BBox → Except RunErr (List HNode)
  | [], cur, counter, _ =>
    match cur with
    | [] => Except.ok []
    | c0 :: crest =>
      Except.ok [add_block_with_lines counter page_num c0 crest w h]
  | Item.tbl tid td :: rest, cur, counter, _ =>
    match cur with
    | [] => do
      let tnode ← add_table_content tid td w h all_lines
      let rnodes ← page_items_loop all_lines w h page_num rest [] counter none
      Except.ok (tnode :: rnodes)
    | c0 :: crest => do
      let bnode := add_block_with_lines counter page_num c0 crest w h
      let tnode ← add_table_content tid td w h all_lines
      let rnodes ← page_items_loop all_lines w h page_num rest []
        (counter + 1) none
      Except.ok (bnode :: tnode :: rnodes)
  | Item.lin lid ld :: rest, cur, counter, last_bbox =>
    match last_bbox with
    | some lb =>
      if !(bboxes_intersect lb ld.boundingBox) then
        match cur with
        | [] =>
          page_items_loop all_lines w h page_num rest [(lid, ld)] counter
            (some ld.boundingBox)
        | c0 :: crest => do
          let bnode := add_block_with_lines counter page_num c0 crest w h
          let rnodes ← page_items_loop all_lines w h page_num rest
            [(lid, ld)] (counter + 1) (some ld.boundingBox)
          Except.ok (bnode :: rnodes)
      else
        page_items_loop all_lines w h page_num rest (cur ++ [(lid, ld)])
          counter (some ld.boundingBox)
    | none =>
      page_items_loop all_lines w h page_num rest (cur ++ [(lid, ld)])
        counter (some ld.boundingBox)

/-- The `_add_page_content` renderer: a page container wrapping the
grouping walk over the sorted content items (with empty initial block,
counter 1, and no tracked box). -/
def add_page_content (page_num : ℕ) (pd : PageData) (dims : Dims) :
    Except RunErr HNode := do
  let children ← page_items_loop pd.lines dims.width dims.height page_num
    (content_items pd) [] 1 none
  Except.ok (HNode.page page_num dims.width dims.height children)

/-- Body loop of `_build_hocr_html` over the sorted page numbers. -/
def render_pages (result_data : List (ℕ × PageData))
    (page_dimensions : List (ℕ × Dims)) : List ℕ →
    Except RunErr (List HNode)
  | [] => Except.ok []
  | p :: rest => do
    let pd ← req (dictGet result_data p) ("result_data page")
    let dims ← req (dictGet page_dimensions p) ("page_dimensions page")
    let node ← add_page_content p pd dims
    let rnodes ← render_pages result_data page_dimensions rest
    Except.ok (node :: rnodes)

/-- The `_build_hocr_html` assembly: pages rendered in ascending order of
the keys of `result_data` (the constant doctype and head of the document
are not modelled; the value is the body's list of page containers). -/
def build_hocr_html (result_data : List (ℕ × PageData))
    (page_dimensions : List (ℕ × Dims)) : Except RunErr (List HNode) :=
  render_pages result_data page_dimensions
    (stableSort (fun a b => decide (a < b)) (result_data.map (fun p => p.1)))

/-- Placeholder loop of the PAGE branch (multi-page paths): for each CHILD
id whose first matching block is a LINE not in the table-line set, an
empty placeholder is written into the page's lines dict. -/
def page_placeholders (all_blocks : List Block) (table_line_ids : List String)
    (rels : List Relationship) (lines0 : List (String × Option LineData)) :
    List (String × Option LineData) :=
  rels.foldl
    (fun acc rel =>
      if rel.type == "CHILD" then
        rel.ids.foldl
          (fun acc line_id =>
            match all_blocks.find? (fun b => b.id == line_id) with
            | some cb =>
              if cb.blockType == "LINE" && !(table_line_ids.contains line_id) then
                dictSet acc line_id none
              else acc
            | none => acc)
          acc
      else acc)
    lines0

/-- Second pass of `_convert_single_page`: every LINE block goes through
the line builder and every TABLE block through the table builder, all
into the single page-1 entry. -/
def single_pass (all_blocks : List Block) : List Block → PageData →
    Except RunErr PageData
  | [], pd => Except.ok pd
  | b :: rest, pd =>
    if b.blockType == "LINE" then do
      let ls ← add_line_block pd.lines b all_blocks
      single_pass all_blocks rest { lines := ls, tables := pd.tables }
    else if b.blockType == "TABLE" then do
      let ts ← add_table_block pd.tables b all_blocks
      single_pass all_blocks rest { lines := pd.lines, tables := ts }
    else single_pass all_blocks rest pd

/-- The `_convert_single_page` path: page dimensions for page 1, the (here
unused) table-ownership first pass, the second pass over all blocks, and
the markup build. -/
def convert_single_page (result : Document) (source_file : Option FileContent)
    (dimensions : Option Dims) (pdfAvail : Bool) : Except RunErr (List HNode) := do
  let page_dimensions :=
    [(1, get_document_dimensions source_file 1 dimensions pdfAvail)]
  let tw := collect_table_ids result.blocks (fun _ => true)
  let _table_line_ids := reclassify_table_lines result.blocks tw.2 tw.1
  let pd ← single_pass result.blocks result.blocks { lines := [], tables := [] }
  build_hocr_html [(1, pd)] page_dimensions

/-- Second pass of `_convert_multiple_pages`: a PAGE block (re)initializes
its page's entry and dimensions and writes line placeholders excluding
table lines; LINE and TABLE blocks are built into their page's entry,
raising `KeyError` when the page entry does not exist yet. -/
def multi_pass (all_blocks : List Block) (table_line_ids : List String)
    (file : Option FileContent) (dims : Option Dims) (pdfAvail : Bool) :
    List Block → List (ℕ × PageData) → List (ℕ × Dims) →
    Except RunErr (List (ℕ × PageData) × List (ℕ × Dims))
  | [], rd, pdims => Except.ok (rd, pdims)
  | b :: rest, rd, pdims =>
    if b.blockType == "PAGE" then do
      let page_num ← req b.page ("Page")
      let lines := match b.relationships with
        | some (r0 :: rs) => page_placeholders all_blocks table_line_ids (r0 :: rs) []
        | _ => []
      multi_pass all_blocks table_line_ids file dims pdfAvail rest
        (dictSet rd page_num { lines := lines, tables := [] })
        (dictSet pdims page_num
          (get_document_dimensions file page_num dims pdfAvail))
    else if b.blockType == "LINE" then do
      let page_num ← req b.page ("Page")
      match dictGet rd page_num with
      | none => Except.error (RunErr.keyError ("result_data page"))
      | some pd => do
        let ls ← add_line_block pd.lines b all_blocks
        multi_pass all_blocks table_line_ids file dims pdfAvail rest
          (dictSet rd page_num { lines := ls, tables := pd.tables }) pdims
    else if b.blockType == "TABLE" then do
      let page_num ← req b.page ("Page")
      match dictGet rd page_num with
      | none => Except.error (RunErr.keyError ("result_data page"))
      | some pd => do
        let ts ← add_table_block pd.tables b all_blocks
        multi_pass all_blocks table_line_ids file dims pdfAvail rest
          (dictSet rd page_num { lines := pd.lines, tables := ts }) pdims
    else multi_pass all_blocks table_line_ids file dims pdfAvail rest rd pdims

/-- The `_convert_multiple_pages` path: table-ownership first pass, then
the second pass over all blocks (pages discovered from PAGE blocks), and
the markup build. -/
def convert_multiple_pages (result : Document)
    (source_file : Option FileContent) (dimensions : Option Dims)
    (pdfAvail : Bool) : Except RunErr (List HNode) := do
  let tw := collect_table_ids result.blocks (fun _ => true)
  let table_line_ids := reclassify_table_lines result.blocks tw.2 tw.1
  let st ← multi_pass result.blocks table_line_ids source_file dimensions
    pdfAvail result.blocks [] []
  build_hocr_html st.1 st.2

/-- Page filter of the explicit range path: the block's `Page` value is
present and within the requested bounds. -/
def page_in_range (first last : ℕ) (b : Block) : Bool :=
  match b.page with
  | some p => decide (first ≤ p) && decide (p ≤ last)
  | none => false

/-- Second pass of `_extract_page_range` over the blocks of the requested
range: a PAGE block adds placeholders (excluding table lines) into its
already-initialized page entry; LINE and TABLE blocks are built into their
page's entry. -/
def range_pass (all_blocks : List Block) (table_line_ids : List String)
    (first last : ℕ) : List Block → List (ℕ × PageData) →
    Except RunErr (List (ℕ × PageData))
  | [], rd => Except.ok rd
  | b :: rest, rd =>
    if !(page_in_range first last b) then
      range_pass all_blocks table_line_ids first last rest rd
    else if b.blockType == "PAGE" then
      match b.relationships with
      | some rels =>
        match dictGet rd (b.page.getD 0) with
        | none => Except.error (RunErr.keyError ("result_data page"))
        | some pd =>
          range_pass all_blocks table_line_ids first last rest
            (dictSet rd (b.page.getD 0)
              { lines := page_placeholders all_blocks table_line_ids rels pd.lines,
                tables := pd.tables })
      | none => range_pass all_blocks table_line_ids first last rest rd
    else if b.blockType == "LINE" then
      match dictGet rd (b.page.getD 0) with
      | none => Except.error (RunErr.keyError ("result_data page"))
      | some pd => do
        let ls ← add_line_block pd.lines b all_blocks
        range_pass all_blocks table_line_ids first last rest
          (dictSet rd (b.page.getD 0) { lines := ls, tables := pd.tables })
    else if b.blockType == "TABLE" then
      match dictGet rd (b.page.getD 0) with
      | none => Except.error (RunErr.keyError ("result_data page"))
      | some pd => do
        let ts ← add_table_block pd.tables b all_blocks
        range_pass all_blocks table_line_ids first last rest
          (dictSet rd (b.page.getD 0) { lines := pd.lines, tables := ts })
    else range_pass all_blocks table_line_ids first last rest rd

/-- The `_extract_page_range` path: every page of the requested range is
initialized up front (with its dimensions) even when no block references
it; the table-ownership first pass is page-filtered for tables; then the
second pass over in-range blocks and the markup build. -/
def extract_page_range (result : Document) (first_page last_page : ℕ)
    (source_file : Option FileContent) (dimensions : Option Dims)
    (pdfAvail : Bool) : Except RunErr (List HNode) := do
  let pages := List.range' first_page (last_page + 1 - first_page)
  let rd0 := pages.map
    (fun p => (p, ({ lines := [], tables := [] } : PageData)))
  let pdims := pages.map
    (fun p => (p, get_document_dimensions source_file p dimensions pdfAvail))
  let tw := collect_table_ids result.blocks (page_in_range first_page last_page)
  let table_line_ids := reclassify_table_lines result.blocks tw.2 tw.1
  let rd ← range_pass result.blocks table_line_ids first_page last_page
    result.blocks rd0
  build_hocr_html rd pdims

/-- The public `textract_to_hocr` operation: effective bounds defaulting,
the three range validations in source order, then dispatch to the
single-page path (whenever the document has one page), the full multi-page
path (full-range request), or the explicit range path. -/
def textract_to_hocr (textract_result : Document)
    (source_file : Option FileContent) (first_page last_page : Option ℕ)
    (dimensions : Option Dims) (pdfReaderAvailable : Bool) :
    Except PyError (List HNode) :=
  let total_pages := textract_result.totalPages
  let first := first_page.getD 1
  let last := last_page.getD total_pages
  if first < 1 || total_pages < first then
    Except.error (PyError.firstPageOutOfRange first total_pages)
  else if last < 1 || total_pages < last then
    Except.error (PyError.lastPageOutOfRange last total_pages)
  else if last < first then
    Except.error (PyError.firstGreaterThanLast first last)
  else if total_pages == 1 then
    (convert_single_page textract_result source_file dimensions
      pdfReaderAvailable).mapError PyError.runtime
  else if first == 1 && last == total_pages then
    (convert_multiple_pages textract_result source_file dimensions
      pdfReaderAvailable).mapError PyError.runtime
  else
    (extract_page_range textract_result first last source_file dimensions
      pdfReaderAvailable).mapError PyError.runtime

/-- Page number displayed by a page container (0 for other nodes). -/
def pageNumOf : HNode → ℕ
  | HNode.page p _ _ _ => p
  | _ => 0

/-- Page numbers of a rendered body, in emission order. -/
def pageNums (ns : List HNode) : List ℕ := ns.map pageNumOf

mutual

/-- All word-element ids inside a markup node, in document order. -/
def word_ids : HNode → List String
  | HNode.word i _ _ _ => [i]
  | HNode.page _ _ _ cs => word_ids_list cs
  | HNode.block _ _ _ cs => word_ids_list cs
  | HNode.table _ _ _ cs => word_ids_list cs
  | HNode.line _ _ cs => word_ids_list cs

/-- List version of `word_ids`. -/
def word_ids_list : List HNode → List String
  | [] => []
  | n :: rest => word_ids n ++ word_ids_list rest

end

/-- Word ids under a non-table paragraph (`ocr_block`) element. -/
def block_word_ids : HNode → List String
  | HNode.block _ _ _ cs => word_ids_list cs
  | _ => []

/-- Line-element ids that are direct children of a paragraph block. -/
def block_line_ids : HNode → List String
  | HNode.block _ _ _ cs =>
    cs.foldr
      (fun c acc =>
        match c with
        | HNode.line i _ _ => i :: acc
        | _ => acc)
      []
  | _ => []

/-- Word ids appearing inside any paragraph block of a rendered body. -/
def free_block_word_ids (ns : List HNode) : List String :=
  (ns.map
    (fun n =>
      match n with
      | HNode.page _ _ _ cs => (cs.map block_word_ids).flatten
      | _ => [])).flatten

/-- Line ids emitted as free lines (inside paragraph blocks) of a body. -/
def free_line_ids (ns : List HNode) : List String :=
  (ns.map
    (fun n =>
      match n with
      | HNode.page _ _ _ cs => (cs.map block_line_ids).flatten
      | _ => [])).flatten

/-- Table elements of a rendered body with their child-element counts. -/
def table_child_counts (ns : List HNode) : List (String × ℕ) :=
  (ns.map
    (fun n =>
      match n with
      | HNode.page _ _ _ cs =>
        cs.foldr
          (fun c acc =>
            match c with
            | HNode.table i _ _ tcs => (i, tcs.length) :: acc
            | _ => acc)
          []
      | _ => [])).flatten

/-- Whether a conversion result is a success. -/
def convOk (e : Except PyError (List HNode)) : Bool :=
  match e with
  | Except.ok _ => true
  | Except.error _ => false

/-- The id shown by a line element (empty for other nodes). -/
def line_node_id : HNode → String
  | HNode.line i _ _ => i
  | _ => ""

/-- Shape abstraction of one top-level unit of a page: a paragraph block
becomes the list of its line ids, a table becomes its id. -/
def unitShape : HNode → List String ⊕ String
  | HNode.block _ _ _ cs => Sum.inl (cs.map line_node_id)
  | HNode.table i _ _ _ => Sum.inr i
  | _ => Sum.inl []

/-- Shapes of the top-level units of a page container. -/
def pageShapes : HNode → List (List String ⊕ String)
  | HNode.page _ _ _ cs => cs.map unitShape
  | _ => []

/-- Open-interval overlap of the vertical extents `[top, top+height)` of
two boxes, stated as interval intersection: the larger of the two tops
lies strictly below the smaller of the two bottoms. -/
def vOverlap (b1 b2 : BBox) : Bool :=
  decide (max b1.top b2.top < min (b1.top + b1.height) (b2.top + b2.height))

/-- Declarative chain splitter: starting from the box of an open block's
last line, consume the maximal prefix of consecutive line items each of
which vertically intersects the box of its predecessor; stop at the first
non-intersecting line or at a table. -/
def chain_split (prev : BBox) : List Item →
    List (String × LineData) × List Item
  | [] => ([], [])
  | Item.tbl tid td :: rest => ([], Item.tbl tid td :: rest)
  | Item.lin lid ld :: rest =>
    if bboxes_intersect prev ld.boundingBox then
      let r := chain_split ld.boundingBox rest
      ((lid, ld) :: r.1, r.2)
    else ([], Item.lin lid ld :: rest)

/-- Declarative reading of the grouping rule: each table is its own atomic
unit; each free line opens a paragraph block that absorbs the maximal
chain of consecutively intersecting following lines. -/
def specGroup : List Item → List (List String ⊕ String)
  | [] => []
  | Item.tbl tid _ :: rest => Sum.inr tid :: specGroup rest
  | Item.lin lid ld :: rest =>
    Sum.inl (lid :: (chain_split ld.boundingBox rest).1.map (fun p => p.1)) ::
      specGroup (chain_split ld.boundingBox rest).2
termination_by l => l.length
decreasing_by
  · simp only [List.length_cons]
    omega
  · simp only [List.length_cons]
    have h : ∀ (p : BBox) (l : List Item),
        (chain_split p l).2.length ≤ l.length := by
      intro p l
      induction l generalizing p with
      | nil => simp [chain_split]
      | cons x rest ih =>
        cases x with
        | tbl tid td => simp [chain_split]
        | lin lid ld =>
          by_cases hI : bboxes_intersect p ld.boundingBox = true
          · simpa [chain_split, hI] using Nat.le_succ_of_le (ih ld.boundingBox)
          · simp [chain_split, hI]
    exact Nat.lt_succ_of_le (h ld.boundingBox rest)

/-- Neutral block: every optional field absent. -/
def blk0 : Block :=
  { blockType := "", id := "", page := none, text := none, confidence := none,
    textType := none, geometry := none, relationships := none,
    rowIndex := none, columnIndex := none, rowSpan := none, columnSpan := none }

/-- Axis-aligned geometry carrying a four-point polygon. -/
def geom4 (l t w h : ℚ) : Geometry :=
  { boundingBox := { left := l, top := t, width := w, height := h },
    polygon := [{ x := l, y := t }, { x := l + w, y := t },
                { x := l + w, y := t + h }, { x := l, y := t + h }] }

/-- Single-page document whose table cell directly owns word W1, while the
page-linked line L1 also lists W1 as its child (the double-linked layout
the reconciler is meant to handle). -/
def c1doc : Document :=
  { totalPages := 1,
    blocks :=
      [{ blk0 with
         blockType := "PAGE",
         id := "P1",
         page := some 1,
         geometry := some (geom4 0 0 1 1),
         relationships := some [{ type := "CHILD", ids := ["L1"] }] },
       { blk0 with
         blockType := "TABLE",
         id := "T1",
         page := some 1,
         confidence := some 98,
         geometry := some (geom4 (2/10) (3/10) (6/10) (3/10)),
         relationships := some [{ type := "CHILD", ids := ["C1"] }] },
       { blk0 with
         blockType := "CELL",
         id := "C1",
         page := some 1,
         confidence := some 97,
         geometry := some (geom4 (2/10) (3/10) (3/10) (15/100)),
         rowIndex := some 1,
         columnIndex := some 1,
         rowSpan := some 1,
         columnSpan := some 1,
         relationships := some [{ type := "CHILD", ids := ["W1"] }] },
       { blk0 with
         blockType := "WORD",
         id := "W1",
         page := some 1,
         text := some ("Cash"),
         confidence := some 99,
         textType := some ("PRINTED"),
         geometry := some (geom4 (22/100) (32/100) (1/10) (1/20)) },
       { blk0 with
         blockType := "LINE",
         id := "L1",
         page := some 1,
         text := some ("Cash"),
         confidence := some 99,
         geometry := some (geom4 (22/100) (32/100) (1/10) (1/20)),
         relationships := some [{ type := "CHILD", ids := ["W1"] }] }] }

/-- Rendered body of `c1doc`. -/
def c1out : List HNode :=
  (textract_to_hocr c1doc none none none none true).toOption.getD []

/-- Same double-linked layout as `c1doc` with fresh ids, exercised for the
line-reclassification claim. -/
def c2doc : Document :=
  { totalPages := 1,
    blocks :=
      [{ blk0 with
         blockType := "PAGE",
         id := "P2",
         page := some 1,
         geometry := some (geom4 0 0 1 1),
         relationships := some [{ type := "CHILD", ids := ["L2"] }] },
       { blk0 with
         blockType := "TABLE",
         id := "T2",
         page := some 1,
         confidence := some 98,
         geometry := some (geom4 (2/10) (3/10) (6/10) (3/10)),
         relationships := some [{ type := "CHILD", ids := ["C2"] }] },
       { blk0 with
         blockType := "CELL",
         id := "C2",
         page := some 1,
         confidence := some 97,
         geometry := some (geom4 (2/10) (3/10) (3/10) (15/100)),
         rowIndex := some 1,
         columnIndex := some 1,
         rowSpan := some 1,
         columnSpan := some 1,
         relationships := some [{ type := "CHILD", ids := ["W2"] }] },
       { blk0 with
         blockType := "WORD",
         id := "W2",
         page := some 1,
         text := some ("Net"),
         confidence := some 99,
         textType := some ("PRINTED"),
         geometry := some (geom4 (22/100) (32/100) (1/10) (1/20)) },
       { blk0 with
         blockType := "LINE",
         id := "L2",
         page := some 1,
         text := some ("Net"),
         confidence := some 99,
         geometry := some (geom4 (22/100) (32/100) (1/10) (1/20)),
         relationships := some [{ type := "CHILD", ids := ["W2"] }] }] }

/-- Table-owned line and word id sets computed from `c2doc`. -/
def c2sets : List String × List String :=
  collect_table_ids c2doc.blocks (fun _ => true)

/-- Rendered body of `c2doc`. -/
def c2out : List HNode :=
  (textract_to_hocr c2doc none none none none true).toOption.getD []

/-- Two-page document in which only page 1 is referenced by a PAGE block;
page 2 is never mentioned by any block. -/
def c4doc : Document :=
  { totalPages := 2,
    blocks :=
      [{ blk0 with
         blockType := "PAGE",
         id := "P1",
         page := some 1,
         geometry := some (geom4 0 0 1 1) }] }

/-- Rendered body of `c4doc` for the full-range request. -/
def c4out : List HNode :=
  (textract_to_hocr c4doc none none none none true).toOption.getD []

/-- Three-page document with no content blocks at all, used to exercise
the explicit page-range path. -/
def c4wdoc : Document := { totalPages := 3, blocks := [] }

/-- Rendered body of `c4wdoc` for the request (2, 2). -/
def c4wout : List HNode :=
  (textract_to_hocr c4wdoc none (some 2) (some 2) none true).toOption.getD []

/-- Single-page document whose only LINE block is missing the optional
Confidence field. -/
def c7doc : Document :=
  { totalPages := 1,
    blocks :=
      [{ blk0 with
         blockType := "LINE",
         id := "L7",
         page := some 1,
         text := some ("Hello"),
         geometry := some (geom4 (1/10) (1/10) (2/10) (1/20)) }] }

/-- The TABLE block of `c8doc`. -/
def c8table : Block :=
  { blk0 with
    blockType := "TABLE",
    id := "T8",
    page := some 1,
    confidence := some 98,
    geometry := some (geom4 (2/10) (3/10) (6/10) (3/10)),
    relationships := some [{ type := "CHILD", ids := ["C8"] }] }

/-- Single-page document with one table whose only cell has no children at
all. -/
def c8doc : Document :=
  { totalPages := 1,
    blocks :=
      [c8table,
       { blk0 with
         blockType := "CELL",
         id := "C8",
         page := some 1,
         confidence := some 97,
         geometry := some (geom4 (2/10) (3/10) (3/10) (15/100)),
         rowIndex := some 1,
         columnIndex := some 1,
         rowSpan := some 1,
         columnSpan := some 1 }] }

/-- Rendered body of `c8doc`. -/
def c8out : List HNode :=
  (textract_to_hocr c8doc none none none none true).toOption.getD []

/-- Table record built from `c8doc`, holding the childless cell. -/
def c8tableData : TableData :=
  ((add_table_block [] c8table c8doc.blocks).toOption.bind
    (fun m => dictGet m ("T8"))).getD
    { blockType := "", confidence := 0,
      boundingBox := { left := 0, top := 0, width := 0, height := 0 },
      polygon := [], cells := [] }

/-- Concrete line record builder for the grouping witness page. -/
def lineRec (txt : String) (l t w h : ℚ) : LineData :=
  { blockType := "LINE", confidence := 99, text := txt,
    boundingBox := { left := l, top := t, width := w, height := h },
    polygon := (geom4 l t w h).polygon, words := [] }

/-- Table record used by the grouping witness page. -/
def c3table : TableData :=
  { blockType := "TABLE", confidence := 98,
    boundingBox := { left := 1/10, top := 3/10, width := 5/10, height := 1/10 },
    polygon := (geom4 (1/10) (3/10) (5/10) (1/10)).polygon, cells := [] }

/-- Page data for the grouping witness: lines A and B overlap vertically,
a table sits between them and the distant line C. -/
def c3pd : PageData :=
  { lines :=
      [("A", some (lineRec ("alpha") (1/10) (1/10) (2/10) (1/20))),
       ("B", some (lineRec ("beta") (4/10) (12/100) (2/10) (1/20))),
       ("C", some (lineRec ("gamma") (1/10) (5/10) (2/10) (1/20)))],
    tables := [("T", c3table)] }

/-- Rendered page container for the grouping witness. -/
def c3node : HNode :=
  (add_page_content 1 c3pd { width := 1000, height := 1000 }).toOption.getD
    (HNode.page 0 0 0 [])

/-- Word entry shared by the cell-precedence witnesses. -/
def c10word (i t : String) : CellWord :=
  { id := i, text := t, confidence := 99, textType := ("PRINTED"),
    boundingBox := { left := 0, top := 0, width := 1/10, height := 1/10 },
    polygon := [] }

/-- Lines dict used by the cell-precedence witness. -/
def c10al : List (String × Option LineData) :=
  [(("LW"), some (lineRec ("w") (1/10) (1/10) (2/10) (1/20)))]

/-- Cell with a LINE child and a direct word. -/
def c10cellA : CellData :=
  { blockType := "CELL", confidence := 99, rowIndex := 1, columnIndex := 1,
    rowSpan := 1, columnSpan := 1, lineIds := ["LW"],
    words := [c10word ("WW") ("x")],
    boundingBox := { left := 0, top := 0, width := 1/2, height := 1/2 },
    polygon := [] }

/-- Cell with only a direct word and no LINE child. -/
def c10cellB : CellData :=
  { blockType := "CELL", confidence := 99, rowIndex := 1, columnIndex := 1,
    rowSpan := 1, columnSpan := 1, lineIds := [],
    words := [c10word ("WW2") ("y")],
    boundingBox := { left := 0, top := 0, width := 1/2, height := 1/2 },
    polygon := [] }

/-- Whether an error is one of the three page-range validation errors. -/
def isValidationError : PyError → Bool
  | PyError.firstPageOutOfRange _ _ => true
  | PyError.lastPageOutOfRange _ _ => true
  | PyError.firstGreaterThanLast _ _ => true
  | PyError.runtime _ => false

/-- The validation error the source raises for an invalid effective range,
following the order of its three checks. -/
def expected_validation_error (first last total : ℕ) : PyError :=
  if first < 1 || total < first then PyError.firstPageOutOfRange first total
  else if last < 1 || total < last then PyError.lastPageOutOfRange last total
  else PyError.firstGreaterThanLast first last

/-- Three-page empty document for the validation witness. -/
def c5doc : Document := { totalPages := 3, blocks := [] }

/-- WORD block with both optional fields (Confidence, TextType) absent. -/
def c7wb : Block :=
  { blk0 with
    blockType := "WORD",
    id := "W7",
    text := some ("Hi"),
    geometry := some (geom4 0 0 (1/10) (1/10)) }

/-- The LINE block of `c7doc` (no Confidence field). -/
def c7line : Block :=
  { blk0 with
    blockType := "LINE",
    id := "L7",
    page := some 1,
    text := some ("Hello"),
    geometry := some (geom4 (1/10) (1/10) (2/10) (1/20)) }

/-- Cell with no children at all, for the empty-content witness. -/
def c8emptyCell : CellData :=
  { blockType := "CELL", confidence := 99, rowIndex := 1, columnIndex := 1,
    rowSpan := 1, columnSpan := 1, lineIds := [], words := [],
    boundingBox := { left := 0, top := 0, width := 1/2, height := 1/2 },
    polygon := [] }

/-- Concrete boxes for the overlap-characterization witness. -/
def c3boxA : BBox := { left := 0, top := 0, width := 1, height := 1/2 }

/-- Second concrete box for the overlap-characterization witness. -/
def c3boxB : BBox := { left := 0, top := 1/4, width := 1, height := 1/2 }

/-!
## Theorems
-/

/-- Python truncation agrees with the floor on non-negative rationals. -/
theorem pyInt_nonneg_eq_floor (q : ℚ) (h : 0 ≤ q) : pyInt q = ⌊q⌋ := by
  rw [Rat.floor_def]
  exact Int.tdiv_eq_ediv (Rat.num_nonneg.mpr h) (Int.ofNat_nonneg q.den)

/-- C6: every rendered pixel bounding box is the floor-scaled image of the
normalized box, `(floor (left*w), floor (top*h), floor ((left+width)*w),
floor ((top+height)*h))`; for non-negative page dimensions and a
non-degenerate box the right edge is at least the left and the bottom at
least the top; and a non-negative confidence is emitted as its
truncated-to-integer value, which is its floor. -/
theorem c6_pixel_geometry (b : BBox) (w h : ℤ) (conf : ℚ)
    (hw : 0 ≤ w) (hh : 0 ≤ h) (hl : 0 ≤ b.left) (ht : 0 ≤ b.top)
    (hbw : 0 ≤ b.width) (hbh : 0 ≤ b.height) (hc : 0 ≤ conf) :
    bboxPx b w h =
      { left := ⌊b.left * (w : ℚ)⌋, top := ⌊b.top * (h : ℚ)⌋,
        right := ⌊(b.left + b.width) * (w : ℚ)⌋,
        bottom := ⌊(b.top + b.height) * (h : ℚ)⌋ } ∧
    (bboxPx b w h).left ≤ (bboxPx b w h).right ∧
    (bboxPx b w h).top ≤ (bboxPx b w h).bottom ∧
    pyInt conf = ⌊conf⌋ := by
  have hwq : (0 : ℚ) ≤ (w : ℚ) := by exact_mod_cast hw
  have hhq : (0 : ℚ) ≤ (h : ℚ) := by exact_mod_cast hh
  have e1 : pyInt (b.left * (w : ℚ)) = ⌊b.left * (w : ℚ)⌋ :=
    pyInt_nonneg_eq_floor _ (mul_nonneg hl hwq)
  have e2 : pyInt (b.top * (h : ℚ)) = ⌊b.top * (h : ℚ)⌋ :=
    pyInt_nonneg_eq_floor _ (mul_nonneg ht hhq)
  have e3 : pyInt ((b.left + b.width) * (w : ℚ)) =
      ⌊(b.left + b.width) * (w : ℚ)⌋ :=
    pyInt_nonneg_eq_floor _ (mul_nonneg (add_nonneg hl hbw) hwq)
  have e4 : pyInt ((b.top + b.height) * (h : ℚ)) =
      ⌊(b.top + b.height) * (h : ℚ)⌋ :=
    pyInt_nonneg_eq_floor _ (mul_nonneg (add_nonneg ht hbh) hhq)
  have m1 : ⌊b.left * (w : ℚ)⌋ ≤ ⌊(b.left + b.width) * (w : ℚ)⌋ :=
    Int.floor_le_floor
      (mul_le_mul_of_nonneg_right (le_add_of_nonneg_right hbw) hwq)
  have m2 : ⌊b.top * (h : ℚ)⌋ ≤ ⌊(b.top + b.height) * (h : ℚ)⌋ :=
    Int.floor_le_floor
      (mul_le_mul_of_nonneg_right (le_add_of_nonneg_right hbh) hhq)
  refine ⟨?_, ?_, ?_, pyInt_nonneg_eq_floor conf hc⟩
  · simp [bboxPx, e1, e2, e3, e4]
  · simpa [bboxPx, e1, e3] using m1
  · simpa [bboxPx, e2, e4] using m2

/-- C6 witness at a concrete box, dimensions and confidence. -/
theorem c6_pixel_geometry_witness :
    bboxPx { left := 1/10, top := 2/10, width := 3/10, height := 4/10 }
        1000 500 =
      { left := ⌊(1/10 : ℚ) * ((1000 : ℤ) : ℚ)⌋,
        top := ⌊(2/10 : ℚ) * ((500 : ℤ) : ℚ)⌋,
        right := ⌊((1/10 : ℚ) + 3/10) * ((1000 : ℤ) : ℚ)⌋,
        bottom := ⌊((2/10 : ℚ) + 4/10) * ((500 : ℤ) : ℚ)⌋ } ∧
    (bboxPx { left := 1/10, top := 2/10, width := 3/10, height := 4/10 }
        1000 500).left ≤
      (bboxPx { left := 1/10, top := 2/10, width := 3/10, height := 4/10 }
        1000 500).right ∧
    (bboxPx { left := 1/10, top := 2/10, width := 3/10, height := 4/10 }
        1000 500).top ≤
      (bboxPx { left := 1/10, top := 2/10, width := 3/10, height := 4/10 }
        1000 500).bottom ∧
    pyInt (995/10) = ⌊(995/10 : ℚ)⌋ :=
  c6_pixel_geometry
    { left := 1/10, top := 2/10, width := 3/10, height := 4/10 } 1000 500
    (995/10) (by norm_num) (by norm_num) (by norm_num) (by norm_num)
    (by norm_num) (by norm_num) (by norm_num)

/-- C9: dimension resolution is a total function (it never raises); an
override is returned verbatim; a missing source reference, an unreadable
file, a missing reader library, and a page index beyond the document all
yield the 1000 by 1000 default; a readable image yields its native pixel
size; and a readable paginated document with the page in range yields that
page's media-box size truncated to integer pixels. -/
theorem c9_dimension_resolution :
    (∀ (file : Option FileContent) (pn : ℕ) (d : Dims) (pa : Bool),
        get_document_dimensions file pn (some d) pa = d) ∧
    (∀ (pn : ℕ) (pa : Bool),
        get_document_dimensions none pn none pa =
          { width := 1000, height := 1000 }) ∧
    (∀ (pn : ℕ) (pa : Bool),
        get_document_dimensions (some FileContent.unreadable) pn none pa =
          { width := 1000, height := 1000 }) ∧
    (∀ (pages : List (ℚ × ℚ)) (pn : ℕ),
        get_document_dimensions (some (FileContent.pdf pages)) pn none false =
          { width := 1000, height := 1000 }) ∧
    (∀ (pages : List (ℚ × ℚ)) (pn : ℕ), pages.length < pn →
        get_document_dimensions (some (FileContent.pdf pages)) pn none true =
          { width := 1000, height := 1000 }) ∧
    (∀ (w h : ℤ) (pn : ℕ) (pa : Bool),
        get_document_dimensions (some (FileContent.image w h)) pn none pa =
          { width := w, height := h }) ∧
    (∀ (pages : List (ℚ × ℚ)) (pn : ℕ) (pw ph : ℚ), pn ≤ pages.length →
        pages.getD (pn - 1) (0, 0) = (pw, ph) →
        get_document_dimensions (some (FileContent.pdf pages)) pn none true =
          { width := pyInt pw, height := pyInt ph }) := by
  refine ⟨fun file pn d pa => rfl, fun pn pa => rfl, fun pn pa => rfl,
    fun pages pn => rfl, ?_, fun w h pn pa => rfl, ?_⟩
  · intro pages pn hlt
    simp [get_document_dimensions, TEXTRACT_DEFAULT_WIDTH,
      TEXTRACT_DEFAULT_HEIGHT, Nat.not_le.mpr hlt]
  · intro pages pn pw ph hle hget
    simp only [get_document_dimensions, if_true]
    rw [if_pos hle, hget]

/-- C9 witness: one concrete instance of each branch of the resolver. -/
theorem c9_dimension_resolution_witness :
    get_document_dimensions (some (FileContent.image 800 600)) 1
        (some { width := 2550, height := 3300 }) true =
      { width := 2550, height := 3300 } ∧
    get_document_dimensions none 1 none true =
      { width := 1000, height := 1000 } ∧
    get_document_dimensions (some FileContent.unreadable) 1 none true =
      { width := 1000, height := 1000 } ∧
    get_document_dimensions (some (FileContent.pdf [(612, 792)])) 1 none
        false = { width := 1000, height := 1000 } ∧
    get_document_dimensions (some (FileContent.pdf [(612, 792)])) 2 none
        true = { width := 1000, height := 1000 } ∧
    get_document_dimensions (some (FileContent.image 800 600)) 1 none true =
      { width := 800, height := 600 } ∧
    get_document_dimensions (some (FileContent.pdf [(6125/10, 792)])) 1 none
        true = { width := pyInt (6125/10), height := pyInt 792 } :=
  ⟨c9_dimension_resolution.1 (some (FileContent.image 800 600)) 1
      { width := 2550, height := 3300 } true,
   c9_dimension_resolution.2.1 1 true,
   c9_dimension_resolution.2.2.1 1 true,
   c9_dimension_resolution.2.2.2.1 [(612, 792)] 1,
   c9_dimension_resolution.2.2.2.2.1 [(612, 792)] 2 (by norm_num),
   c9_dimension_resolution.2.2.2.2.2.1 800 600 1 true,
   c9_dimension_resolution.2.2.2.2.2.2 [(6125/10, 792)] 1 (6125/10) 792
     (by norm_num) rfl⟩

/-- C10: when a cell has at least one LINE child, its rendering is exactly
the rendering of those LINE children (any direct WORD children are
ignored); the synthetic line wrapping a cell's direct WORD children is
emitted, alone, exactly when the cell has words and no LINE children. -/
theorem c10_cell_line_precedence (al : List (String × Option LineData))
    (w h : ℤ) (cid : String) (cd : CellData) :
    (cd.lineIds ≠ [] →
      render_cell al w h cid cd = cell_lines_render al w h cd.lineIds) ∧
    (cd.lineIds = [] → cd.words ≠ [] →
      render_cell al w h cid cd =
        Except.ok [HNode.line (cid ++ ("_line")) (bboxPx cd.boundingBox w h)
          (cd.words.map (fun wd => HNode.word wd.id (bboxPx wd.boundingBox w h)
            (pyInt wd.confidence) wd.text))]) := by
  constructor
  · intro hne
    have hie : cd.lineIds.isEmpty = false := by
      cases hl : cd.lineIds with
      | nil => exact absurd hl hne
      | cons a l => simp [List.isEmpty]
    cases hr : cell_lines_render al w h cd.lineIds with
    | ok ns =>
      simp [render_cell, hr, hie]
      rfl
    | error e =>
      simp [render_cell, hr, hie]
      rfl
  · intro hnil hwne
    have hwe : cd.words.isEmpty = false := by
      cases hw : cd.words with
      | nil => exact absurd hw hwne
      | cons a l => simp [List.isEmpty]
    simp [render_cell, hnil, cell_lines_render, hwe]
    rfl

/-- C10 witness: a cell with one LINE child renders that line only, and a
cell with only direct words renders the lone synthetic line. -/
theorem c10_cell_line_precedence_witness :
    render_cell c10al 1000 1000 ("CW") c10cellA =
      cell_lines_render c10al 1000 1000 c10cellA.lineIds ∧
    render_cell [] 1000 1000 ("CW2") c10cellB =
      Except.ok [HNode.line (("CW2") ++ ("_line"))
        (bboxPx c10cellB.boundingBox 1000 1000)
        (c10cellB.words.map (fun wd => HNode.word wd.id
          (bboxPx wd.boundingBox 1000 1000) (pyInt wd.confidence) wd.text))] :=
  ⟨(c10_cell_line_precedence c10al 1000 1000 ("CW") c10cellA).1
     (by simp [c10cellA]),
   (c10_cell_line_precedence [] 1000 1000 ("CW2") c10cellB).2
     (by simp [c10cellB]) (by simp [c10cellB])⟩

/-- An error surviving `mapError PyError.runtime` is never one of the
range-validation errors. -/
theorem mapError_runtime_not_validation (x : Except RunErr (List HNode))
    (e : PyError) (h : x.mapError PyError.runtime = Except.error e) :
    isValidationError e = false := by
  cases x with
  | ok a => simp [Except.mapError] at h
  | error r =>
    simp [Except.mapError] at h
    rw [← h]
    rfl

/-- C5: with effective bounds `first = first_page or 1` and
`last = last_page or totalPages`, a request satisfying
`1 ≤ first ≤ last ≤ totalPages` never produces a range-validation error
(any failure is a runtime error of the conversion body), while any other
request fails up front with the validation error naming the offending
bound, exactly as the source's three checks order them — so no partial
output is produced. -/
theorem c5_range_validation (d : Document) (file : Option FileContent)
    (fp lp : Option ℕ) (dims : Option Dims) (pa : Bool) :
    (1 ≤ fp.getD 1 ∧ fp.getD 1 ≤ lp.getD d.totalPages ∧
        lp.getD d.totalPages ≤ d.totalPages →
      ∀ e, textract_to_hocr d file fp lp dims pa = Except.error e →
        isValidationError e = false) ∧
    (¬(1 ≤ fp.getD 1 ∧ fp.getD 1 ≤ lp.getD d.totalPages ∧
        lp.getD d.totalPages ≤ d.totalPages) →
      textract_to_hocr d file fp lp dims pa =
        Except.error (expected_validation_error (fp.getD 1)
          (lp.getD d.totalPages) d.totalPages)) := by
  constructor
  · rintro ⟨h1, h2, h3⟩ e he
    simp only [textract_to_hocr] at he
    split_ifs at he with hc1 hc2 hc3 hc4 hc5
    · simp only [Bool.or_eq_true, decide_eq_true_eq] at hc1
      rcases hc1 with h | h <;> omega
    · simp only [Bool.or_eq_true, decide_eq_true_eq] at hc2
      rcases hc2 with h | h <;> omega
    · omega
    · exact mapError_runtime_not_validation _ e he
    · exact mapError_runtime_not_validation _ e he
    · exact mapError_runtime_not_validation _ e he
  · intro hout
    simp only [textract_to_hocr, expected_validation_error]
    split_ifs with hc1 hc2 hc3 hc4 hc5
    · rfl
    · rfl
    · rfl
    · exfalso
      simp only [Bool.or_eq_true, decide_eq_true_eq, not_or] at hc1 hc2
      exact hout ⟨by omega, by omega, by omega⟩
    · exfalso
      simp only [Bool.or_eq_true, decide_eq_true_eq, not_or] at hc1 hc2
      exact hout ⟨by omega, by omega, by omega⟩
    · exfalso
      simp only [Bool.or_eq_true, decide_eq_true_eq, not_or] at hc1 hc2
      exact hout ⟨by omega, by omega, by omega⟩

/-- C5 witness: the inverted request (3, 1) on a three-page document fails
with the ordering validation error, and an in-range request that fails at
runtime (missing line confidence) does not fail with a validation
error. -/
theorem c5_range_validation_witness :
    textract_to_hocr c5doc none (some 3) (some 1) none true =
      Except.error (expected_validation_error ((some 3 : Option ℕ).getD 1)
        ((some 1 : Option ℕ).getD c5doc.totalPages) c5doc.totalPages) ∧
    isValidationError (PyError.runtime (RunErr.keyError ("Confidence"))) =
      false :=
  ⟨(c5_range_validation c5doc none (some 3) (some 1) none true).2
     (by simp [c5doc]),
   (c5_range_validation c7doc none none none none true).1
     (by simp [c7doc])
     (PyError.runtime (RunErr.keyError ("Confidence")))
     (by with_unfolding_all rfl)⟩

/-- C7 counterexample: a free LINE block missing only the optional
Confidence field makes the whole conversion raise `KeyError` instead of
substituting the documented default. -/
theorem c7_counterexample :
    textract_to_hocr c7doc none none none none true =
      Except.error (PyError.runtime (RunErr.keyError ("Confidence"))) := by
  with_unfolding_all rfl

/-- C7 (amended): the documented defaults for missing Confidence and
TextType (100 and PRINTED) are substituted only for WORD blocks that are
direct children of table cells; a free LINE block with no Confidence makes
`_add_line_block`, and with it the conversion, raise `KeyError`. -/
theorem c7_missing_optional_fields (blocks : List Block) (wid : String)
    (wb : Block) (t : String) (g : Geometry)
    (hfind : blocks.find? (fun b => b.id == wid) = some wb)
    (htype : wb.blockType = "WORD") (hconf : wb.confidence = none)
    (htt : wb.textType = none) (htext : wb.text = some t)
    (hgeom : wb.geometry = some g)
    (lb : Block) (pl : List (String × Option LineData))
    (hlconf : lb.confidence = none) :
    cell_child_data blocks [wid] ([], []) =
      Except.ok ([], [{ id := wid, text := t, confidence := 100,
                        textType := ("PRINTED"),
                        boundingBox := g.boundingBox,
                        polygon := g.polygon }]) ∧
    add_line_block pl lb blocks =
      Except.error (RunErr.keyError ("Confidence")) := by
  constructor
  · have hnl : (wb.blockType == "LINE") = false := by simp [htype]
    have hw : (wb.blockType == "WORD") = true := by simp [htype]
    simp only [cell_child_data, hfind, hnl, hw, htext, hgeom, hconf, htt, req,
      Bool.false_eq_true, if_false, if_true, Option.getD_none]
    rfl
  · simp only [add_line_block, hlconf, req]
    rfl

/-- C7 witness: the defaulted cell-word extraction and the raising line
builder at concrete blocks. -/
theorem c7_missing_optional_fields_witness :
    cell_child_data [c7wb] ["W7"] ([], []) =
      Except.ok ([], [{ id := ("W7"), text := ("Hi"), confidence := 100,
                        textType := ("PRINTED"),
                        boundingBox := (geom4 0 0 (1/10) (1/10)).boundingBox,
                        polygon := (geom4 0 0 (1/10) (1/10)).polygon }]) ∧
    add_line_block [] c7line [c7wb] =
      Except.error (RunErr.keyError ("Confidence")) :=
  c7_missing_optional_fields [c7wb] ("W7") c7wb ("Hi")
    (geom4 0 0 (1/10) (1/10)) (by with_unfolding_all rfl) rfl rfl rfl rfl rfl
    c7line [] rfl

/-- C8 counterexample: the childless cell C8 is present in the table data
built from the document, yet the rendered table element has no children at
all — nothing is emitted for the empty cell. -/
theorem c8_counterexample :
    convOk (textract_to_hocr c8doc none none none none true) = true ∧
    c8tableData.cells.map (fun p => p.1) = ["C8"] ∧
    table_child_counts c8out = [(("T8"), 0)] := by
  refine ⟨?_, ?_, ?_⟩ <;> with_unfolding_all rfl

/-- C8 (amended): a line whose word enumeration is empty is emitted as a
line element with no children, while a cell with neither LINE nor WORD
children contributes no markup to the table at all (no element is emitted
for it). -/
theorem c8_empty_content (lid : String) (ld : LineData) (w h : ℤ)
    (al : List (String × Option LineData)) (cid : String) (cd : CellData) :
    (ld.words = [] →
      add_line_content lid ld w h =
        HNode.line lid (bboxPx ld.boundingBox w h) []) ∧
    (cd.lineIds = [] → cd.words = [] →
      render_cell al w h cid cd = Except.ok []) := by
  constructor
  · intro hw
    simp [add_line_content, hw]
  · intro h1 h2
    simp [render_cell, h1, h2, cell_lines_render]
    rfl

/-- C8 witness: a concrete empty line renders childless and a concrete
childless cell renders nothing. -/
theorem c8_empty_content_witness :
    add_line_content ("LE") (lineRec ("t") 0 0 (1/10) (1/10)) 1000 1000 =
      HNode.line ("LE")
        (bboxPx (lineRec ("t") 0 0 (1/10) (1/10)).boundingBox 1000 1000) [] ∧
    render_cell [] 1000 1000 ("CE") c8emptyCell = Except.ok [] :=
  ⟨(c8_empty_content ("LE") (lineRec ("t") 0 0 (1/10) (1/10)) 1000 1000 []
      ("CE") c8emptyCell).1 rfl,
   (c8_empty_content ("LE") (lineRec ("t") 0 0 (1/10) (1/10)) 1000 1000 []
      ("CE") c8emptyCell).2 rfl rfl⟩

/-- C1: in `c1doc` the word W1 is a direct child of a table cell (it is in
the collected table-owned word set), yet the rendered output also emits W1
inside a non-table paragraph block — the claimed invariant fails on the
code. -/
theorem c1_table_word_rendered_in_free_block :
    convOk (textract_to_hocr c1doc none none none none true) = true ∧
    (collect_table_ids c1doc.blocks (fun _ => true)).2 = ["W1"] ∧
    free_block_word_ids c1out = ["W1"] := by
  refine ⟨?_, ?_, ?_⟩ <;> with_unfolding_all rfl

/-- C2: the free-standing line L2 of `c2doc` shares its word with a table
cell and is duly added to the reclassified table-line set, yet the
rendered output still emits L2 as a free line inside a paragraph block —
the reclassification never reaches the renderer. -/
theorem c2_reclassified_line_rendered_free :
    (reclassify_table_lines c2doc.blocks c2sets.2 c2sets.1).contains ("L2") =
      true ∧
    free_line_ids c2out = ["L2"] := by
  refine ⟨?_, ?_⟩ <;> with_unfolding_all rfl

/-- C4 counterexample: the full-range request on the two-page `c4doc`
(whose page 2 is referenced by no block) succeeds but renders a single
page container, for page 1 only, instead of the claimed
`last - first + 1 = 2` containers. -/
theorem c4_counterexample :
    convOk (textract_to_hocr c4doc none none none none true) = true ∧
    c4doc.totalPages = 2 ∧ pageNums c4out = [1] := by
  refine ⟨?_, ?_, ?_⟩ <;> with_unfolding_all rfl

/-- Membership in a stable insertion. -/
theorem mem_insOrd {α : Type} (lt : α → α → Bool) (x z : α) (l : List α) :
    z ∈ insOrd lt x l ↔ z = x ∨ z ∈ l := by
  induction l with
  | nil => simp [insOrd]
  | cons y ys ih =>
    by_cases hlt : lt y x = true
    · simp only [insOrd, hlt, if_true, List.mem_cons, ih]
      tauto
    · simp only [insOrd, hlt, Bool.false_eq_true, if_false, List.mem_cons]

/-- Inserting into a list sorted by top coordinate keeps it sorted. -/
theorem pairwise_insOrd (x : Item) (l : List Item)
    (hp : List.Pairwise (fun a b : Item => a.top ≤ b.top) l) :
    List.Pairwise (fun a b : Item => a.top ≤ b.top) (insOrd itemLt x l) := by
  induction l with
  | nil => simp [insOrd]
  | cons y ys ih =>
    rcases List.pairwise_cons.mp hp with ⟨hy, hys⟩
    by_cases hlt : itemLt y x = true
    · have hyx : y.top ≤ x.top :=
        le_of_lt (by simpa [itemLt] using hlt)
      simp only [insOrd, hlt, if_true]
      refine List.pairwise_cons.mpr ⟨?_, ih hys⟩
      intro z hz
      rcases (mem_insOrd itemLt x z ys).mp hz with rfl | hzys
      · exact hyx
      · exact hy z hzys
    · have hxy : x.top ≤ y.top :=
        le_of_not_lt (by simpa [itemLt] using hlt)
      simp only [insOrd, hlt, Bool.false_eq_true, if_false]
      refine List.pairwise_cons.mpr ⟨?_, hp⟩
      intro z hz
      rcases List.mem_cons.mp hz with rfl | hzys
      · exact hxy
      · exact le_trans hxy (hy z hzys)

/-- The stable sort by top coordinate is sorted ascending. -/
theorem pairwise_stableSort_top (l : List Item) :
    List.Pairwise (fun a b : Item => a.top ≤ b.top) (stableSort itemLt l) := by
  induction l with
  | nil => simp [stableSort]
  | cons x xs ih =>
    simpa [stableSort] using
      pairwise_insOrd x (stableSort itemLt xs) (by simpa [stableSort] using ih)

/-- The sorted content items of a page are ascending in top coordinate. -/
theorem pairwise_content_items (pd : PageData) :
    List.Pairwise (fun a b : Item => a.top ≤ b.top) (content_items pd) := by
  simp only [content_items]
  exact pairwise_stableSort_top _

/-- Bind of a success in the `Except` monad. -/
theorem except_bind_ok {ε α β : Type} (a : α) (f : α → Except ε β) :
    (Except.ok a >>= f) = f a := rfl

/-- Bind of a failure in the `Except` monad. -/
theorem except_bind_error {ε α β : Type} (e : ε) (f : α → Except ε β) :
    ((Except.error e : Except ε α) >>= f) = Except.error e := rfl

/-- A rendered paragraph block's shape is the id list of its lines. -/
theorem unitShape_block (counter pn : ℕ) (c0 : String × LineData)
    (crest : List (String × LineData)) (w h : ℤ) :
    unitShape (add_block_with_lines counter pn c0 crest w h) =
      Sum.inl ((c0 :: crest).map (fun p => p.1)) := by
  simp [add_block_with_lines, unitShape, List.map_map, Function.comp,
    add_line_content, line_node_id]

/-- A rendered table's shape is its id. -/
theorem unitShape_table (tid : String) (td : TableData) (w h : ℤ)
    (al : List (String × Option LineData)) (t : HNode)
    (ht : add_table_content tid td w h al = Except.ok t) :
    unitShape t = Sum.inr tid := by
  cases hc : cells_render al w h (stableSort cellLt td.cells) with
  | ok cs =>
    simp only [add_table_content, hc, except_bind_ok, Except.ok.injEq] at ht
    subst ht
    rfl
  | error e => simp [add_table_content, hc, except_bind_error] at ht

/-- Shape of the grouping walk of `_add_page_content`: started with an
empty open block it realizes the declarative grouping `specGroup`, and
started with a non-empty open block whose tracked box is `lb` it first
extends that block with the maximal overlap chain of the remaining
items. -/
theorem page_items_loop_shapes (al : List (String × Option LineData))
    (w h : ℤ) (pn : ℕ) (items : List Item) :
    (∀ (counter : ℕ) (ns : List HNode),
      page_items_loop al w h pn items [] counter none = Except.ok ns →
      ns.map unitShape = specGroup items) ∧
    (∀ (c0 : String × LineData) (crest : List (String × LineData))
        (lb : BBox) (counter : ℕ) (ns : List HNode),
      page_items_loop al w h pn items (c0 :: crest) counter (some lb) =
        Except.ok ns →
      ns.map unitShape =
        Sum.inl (((c0 :: crest) ++ (chain_split lb items).1).map
          (fun p => p.1)) :: specGroup (chain_split lb items).2) := by
  induction items with
  | nil =>
    constructor
    · intro counter ns hok
      simp only [page_items_loop, Except.ok.injEq] at hok
      subst hok
      simp [specGroup]
    · intro c0 crest lb counter ns hok
      simp only [page_items_loop, Except.ok.injEq] at hok
      subst hok
      simp [specGroup, chain_split, unitShape_block]
  | cons x rest ih =>
    rcases ih with ⟨ihA, ihB⟩
    constructor
    · intro counter ns hok
      cases x with
      | tbl tid td =>
        cases htn : add_table_content tid td w h al with
        | error e => simp [page_items_loop, htn, except_bind_error] at hok
        | ok t =>
          cases hrn : page_items_loop al w h pn rest [] counter none with
          | error e =>
            simp [page_items_loop, htn, hrn, except_bind_ok,
              except_bind_error] at hok
          | ok rns =>
            simp only [page_items_loop, htn, hrn, except_bind_ok,
              Except.ok.injEq] at hok
            subst hok
            simp [specGroup, unitShape_table tid td w h al t htn,
              ihA counter rns hrn]
      | lin lid ld =>
        simp only [page_items_loop] at hok
        have hB := ihB (lid, ld) [] ld.boundingBox counter ns hok
        simpa [specGroup] using hB
    · intro c0 crest lb counter ns hok
      cases x with
      | tbl tid td =>
        cases htn : add_table_content tid td w h al with
        | error e => simp [page_items_loop, htn, except_bind_error] at hok
        | ok t =>
          cases hrn : page_items_loop al w h pn rest [] (counter + 1) none with
          | error e =>
            simp [page_items_loop, htn, hrn, except_bind_ok,
              except_bind_error] at hok
          | ok rns =>
            simp only [page_items_loop, htn, hrn, except_bind_ok,
              Except.ok.injEq] at hok
            subst hok
            simp [chain_split, specGroup, unitShape_block,
              unitShape_table tid td w h al t htn, ihA (counter + 1) rns hrn]
      | lin lid ld =>
        by_cases hI : bboxes_intersect lb ld.boundingBox = true
        · simp only [page_items_loop, hI, Bool.not_true, Bool.false_eq_true,
            if_false, List.cons_append] at hok
          have hB := ihB c0 (crest ++ [(lid, ld)]) ld.boundingBox counter ns
            hok
          rw [hB]
          simp [chain_split, hI, List.append_assoc]
        · rw [Bool.not_eq_true] at hI
          simp only [page_items_loop, hI, Bool.not_false, if_true] at hok
          cases hrn : page_items_loop al w h pn rest [(lid, ld)] (counter + 1)
              (some ld.boundingBox) with
          | error e => simp [hrn, except_bind_error] at hok
          | ok rns =>
            simp only [hrn, except_bind_ok, Except.ok.injEq] at hok
            subst hok
            have hB := ihB (lid, ld) [] ld.boundingBox (counter + 1) rns hrn
            simp [chain_split, hI, specGroup, unitShape_block, hB]

/-- C3: in every successfully rendered page, the content items (tables and
free lines) are sorted ascending by the top coordinate of their bounding
boxes; the sequence of top-level units realizes the declarative grouping
in which a table always flushes the open paragraph block, stands as its
own atomic unit and resets adjacency tracking, while consecutive free
lines share a paragraph block exactly as long as each vertically
intersects its predecessor; and for boxes of positive height the
intersection test is precisely open-interval overlap of
`[top, top + height)`. -/
theorem c3_reading_order (pn : ℕ) (pd : PageData) (dims : Dims)
    (node : HNode)
    (h : add_page_content pn pd dims = Except.ok node) :
    List.Pairwise (fun a b : Item => a.top ≤ b.top) (content_items pd) ∧
    pageShapes node = specGroup (content_items pd) ∧
    (∀ b1 b2 : BBox, 0 < b1.height → 0 < b2.height →
      (bboxes_intersect b1 b2 = true ↔
        max b1.top b2.top <
          min (b1.top + b1.height) (b2.top + b2.height))) := by
  refine ⟨pairwise_content_items pd, ?_, ?_⟩
  · cases hl : page_items_loop pd.lines dims.width dims.height pn
        (content_items pd) [] 1 none with
    | error e => simp [add_page_content, hl, except_bind_error] at h
    | ok cs =>
      simp only [add_page_content, hl, except_bind_ok, Except.ok.injEq] at h
      subst h
      simpa [pageShapes] using
        (page_items_loop_shapes pd.lines dims.width dims.height pn
          (content_items pd)).1 1 cs hl
  · intro b1 b2 h1 h2
    simp only [bboxes_intersect, Bool.and_eq_true, decide_eq_true_eq,
      gt_iff_lt, max_lt_iff, lt_min_iff]
    constructor
    · rintro ⟨ha, hb⟩
      exact ⟨⟨by linarith, hb⟩, ⟨ha, by linarith⟩⟩
    · rintro ⟨⟨_, hb⟩, ⟨ha, _⟩⟩
      exact ⟨ha, hb⟩

/-- C3 witness: the concrete page `c3pd` (overlapping lines A and B, a
table, a distant line C) renders sorted and grouped as the declarative
grouping prescribes, and the intersection test agrees with open-interval
overlap on two concrete positive-height boxes. -/
theorem c3_reading_order_witness :
    List.Pairwise (fun a b : Item => a.top ≤ b.top) (content_items c3pd) ∧
    pageShapes c3node = specGroup (content_items c3pd) ∧
    (bboxes_intersect c3boxA c3boxB = true ↔
      max c3boxA.top c3boxB.top <
        min (c3boxA.top + c3boxA.height) (c3boxB.top + c3boxB.height)) := by
  have h := c3_reading_order 1 c3pd { width := 1000, height := 1000 } c3node
    (by with_unfolding_all rfl)
  exact ⟨h.1, h.2.1, h.2.2 c3boxA c3boxB (by norm_num [c3boxA])
    (by norm_num [c3boxB])⟩

/-- A rendered page container carries the page number it was built for. -/
theorem add_page_content_pageNum (p : ℕ) (pd : PageData) (dims : Dims)
    (node : HNode) (h : add_page_content p pd dims = Except.ok node) :
    pageNumOf node = p := by
  cases hl : page_items_loop pd.lines dims.width dims.height p
      (content_items pd) [] 1 none with
  | error e => simp [add_page_content, hl, except_bind_error] at h
  | ok cs =>
    simp only [add_page_content, hl, except_bind_ok, Except.ok.injEq] at h
    subst h
    rfl

/-- The body loop renders one page container per requested page number,
in request order. -/
theorem render_pages_nums (rd : List (ℕ × PageData))
    (pdims : List (ℕ × Dims)) (ks : List ℕ) (ns : List HNode)
    (h : render_pages rd pdims ks = Except.ok ns) :
    ns.map pageNumOf = ks := by
  induction ks generalizing ns with
  | nil =>
    simp only [render_pages, Except.ok.injEq] at h
    subst h
    rfl
  | cons p rest ih =>
    cases hg1 : dictGet rd p with
    | none => simp [render_pages, hg1, req, except_bind_error] at h
    | some pd =>
      cases hg2 : dictGet pdims p with
      | none =>
        simp [render_pages, hg1, hg2, req, except_bind_ok,
          except_bind_error] at h
      | some dims =>
        cases hap : add_page_content p pd dims with
        | error e =>
          simp [render_pages, hg1, hg2, req, except_bind_ok,
            except_bind_error, hap] at h
        | ok node =>
          cases hrp : render_pages rd pdims rest with
          | error e =>
            simp [render_pages, hg1, hg2, req, hap, hrp, except_bind_ok,
              except_bind_error] at h
          | ok rns =>
            simp only [render_pages, hg1, hg2, req, hap, hrp,
              except_bind_ok, Except.ok.injEq] at h
            subst h
            simp [add_page_content_pageNum p pd dims node hap, ih rns hrp]

/-- The assembled body lists page numbers as the sorted keys of
`result_data`. -/
theorem build_hocr_html_nums (rd : List (ℕ × PageData))
    (pdims : List (ℕ × Dims)) (ns : List HNode)
    (h : build_hocr_html rd pdims = Except.ok ns) :
    pageNums ns = stableSort (fun a b => decide (a < b))
      (rd.map (fun p => p.1)) :=
  render_pages_nums rd pdims _ ns h

/-- The stable sort leaves a strictly increasing list unchanged. -/
theorem stableSort_sorted_id (l : List ℕ)
    (h : List.Pairwise (fun a b : ℕ => a < b) l) :
    stableSort (fun a b => decide (a < b)) l = l := by
  induction l with
  | nil => rfl
  | cons x xs ih =>
    rcases List.pairwise_cons.mp h with ⟨hx, hxs⟩
    show insOrd (fun a b => decide (a < b)) x
        (stableSort (fun a b => decide (a < b)) xs) = x :: xs
    rw [ih hxs]
    cases xs with
    | nil => rfl
    | cons y ys =>
      have hxy : x < y := hx y (List.mem_cons_self y ys)
      have hd : decide (y < x) = false := by
        simp only [decide_eq_false_iff_not]
        omega
      simp [insOrd, hd]

/-- A successful dict lookup means the key is found. -/
theorem find_isSome_of_dictGet {κ α : Type} [BEq κ] (m : List (κ × α))
    (k : κ) (v : α) (h : dictGet m k = some v) :
    (m.find? (fun p => p.1 == k)).isSome = true := by
  unfold dictGet at h
  cases hf : m.find? (fun p => p.1 == k) with
  | none => rw [hf] at h; simp at h
  | some p => simp [hf]

/-- Replacing the value at a key leaves the key list unchanged. -/
theorem map_fst_update {κ α : Type} [BEq κ] [LawfulBEq κ]
    (m : List (κ × α)) (k : κ) (v : α) :
    (m.map (fun p => if p.1 == k then (k, v) else p)).map (fun p => p.1) =
      m.map (fun p => p.1) := by
  induction m with
  | nil => rfl
  | cons q qs ih =>
    by_cases hq : (q.1 == k) = true
    · have hqk : q.1 = k := by simpa using hq
      simp [hq, hqk, ih]
    · simp only [Bool.not_eq_true] at hq
      simp [hq, ih]

/-- Writing to a present key leaves the key list unchanged. -/
theorem dictSet_keys {κ α : Type} [BEq κ] [LawfulBEq κ]
    (m : List (κ × α)) (k : κ) (v : α)
    (h : (m.find? (fun p => p.1 == k)).isSome = true) :
    (dictSet m k v).map (fun p => p.1) = m.map (fun p => p.1) := by
  simp only [dictSet, h, if_true]
  exact map_fst_update m k v

/-- The second pass of the explicit range path only updates page entries
that already exist, so the key list of `result_data` is unchanged. -/
theorem range_pass_keys (ab : List Block) (tl : List String) (f l : ℕ)
    (bs : List Block) (rd rd' : List (ℕ × PageData))
    (h : range_pass ab tl f l bs rd = Except.ok rd') :
    rd'.map (fun p => p.1) = rd.map (fun p => p.1) := by
  induction bs generalizing rd with
  | nil =>
    simp only [range_pass, Except.ok.injEq] at h
    subst h
    rfl
  | cons b rest ih =>
    by_cases hpr : page_in_range f l b = true
    swap
    · rw [Bool.not_eq_true] at hpr
      simp only [range_pass, hpr, Bool.not_false, if_true] at h
      exact ih rd h
    · simp only [range_pass, hpr, Bool.not_true, Bool.false_eq_true,
        if_false] at h
      by_cases h1 : (b.blockType == "PAGE") = true
      · simp only [h1, if_true] at h
        cases hrel : b.relationships with
        | none =>
          rw [hrel] at h
          exact ih rd h
        | some rels =>
          rw [hrel] at h
          cases hg : dictGet rd (b.page.getD 0) with
          | none => rw [hg] at h; cases h
          | some pd =>
            rw [hg] at h
            rw [ih _ h]
            exact dictSet_keys rd (b.page.getD 0) _
              (find_isSome_of_dictGet rd _ pd hg)
      · rw [Bool.eq_false_iff.mpr h1] at h
        simp only [Bool.false_eq_true, if_false] at h
        by_cases h2 : (b.blockType == "LINE") = true
        · simp only [h2, if_true] at h
          cases hg : dictGet rd (b.page.getD 0) with
          | none => rw [hg] at h; cases h
          | some pd =>
            simp only [hg] at h
            cases hal : add_line_block pd.lines b ab with
            | error e => rw [hal, except_bind_error] at h; cases h
            | ok ls =>
              rw [hal, except_bind_ok] at h
              rw [ih _ h]
              exact dictSet_keys rd (b.page.getD 0) _
                (find_isSome_of_dictGet rd _ pd hg)
        · rw [Bool.eq_false_iff.mpr h2] at h
          simp only [Bool.false_eq_true, if_false] at h
          by_cases h3 : (b.blockType == "TABLE") = true
          · simp only [h3, if_true] at h
            cases hg : dictGet rd (b.page.getD 0) with
            | none => rw [hg] at h; cases h
            | some pd =>
              simp only [hg] at h
              cases hat : add_table_block pd.tables b ab with
              | error e => rw [hat, except_bind_error] at h; cases h
              | ok ts =>
                rw [hat, except_bind_ok] at h
                rw [ih _ h]
                exact dictSet_keys rd (b.page.getD 0) _
                  (find_isSome_of_dictGet rd _ pd hg)
          · rw [Bool.eq_false_iff.mpr h3] at h
            simp only [Bool.false_eq_true, if_false] at h
            exact ih rd h

/-- Pages of the range path: the second pass followed by the markup build
renders the sorted initial key list. -/
theorem range_build_pages (ab : List Block) (tl : List String) (f l : ℕ)
    (bs : List Block) (rd0 : List (ℕ × PageData)) (pdims : List (ℕ × Dims))
    (ns : List HNode)
    (h : (range_pass ab tl f l bs rd0 >>= fun rd =>
      build_hocr_html rd pdims) = Except.ok ns) :
    pageNums ns = stableSort (fun a b => decide (a < b))
      (rd0.map (fun p => p.1)) := by
  cases hrp : range_pass ab tl f l bs rd0 with
  | error e => rw [hrp, except_bind_error] at h; cases h
  | ok rd =>
    rw [hrp, except_bind_ok] at h
    rw [build_hocr_html_nums rd pdims ns h,
      range_pass_keys ab tl f l bs rd0 rd hrp]

/-- The explicit page-range path renders exactly one page container per
requested page number, in ascending order, regardless of which blocks the
document contains. -/
theorem extract_page_range_pages (d : Document) (f l : ℕ)
    (file : Option FileContent) (dims : Option Dims) (pa : Bool)
    (ns : List HNode)
    (h : extract_page_range d f l file dims pa = Except.ok ns) :
    pageNums ns = List.range' f (l + 1 - f) := by
  simp only [extract_page_range] at h
  rw [range_build_pages _ _ _ _ _ _ _ ns h, List.map_map]
  have hmap : ((fun p => p.1) ∘
      (fun p : ℕ => (p, ({ lines := [], tables := [] } : PageData)))) =
      fun p : ℕ => p := rfl
  rw [hmap, List.map_id']
  exact stableSort_sorted_id _ (List.pairwise_lt_range' f (l + 1 - f))

/-- The single-page path always renders exactly the one container for
page 1. -/
theorem convert_single_page_pages (d : Document) (file : Option FileContent)
    (dims : Option Dims) (pa : Bool) (ns : List HNode)
    (h : convert_single_page d file dims pa = Except.ok ns) :
    pageNums ns = [1] := by
  simp only [convert_single_page] at h
  cases hsp : single_pass d.blocks d.blocks { lines := [], tables := [] } with
  | error e => rw [hsp, except_bind_error] at h; cases h
  | ok pd =>
    rw [hsp, except_bind_ok] at h
    have hb := build_hocr_html_nums _ _ ns h
    simpa [stableSort, insOrd] using hb

/-- C4 (amended): for every valid request `1 ≤ first ≤ last ≤ totalPages`
handled by the single-page path (`totalPages = 1`) or by the explicit
page-range path (the request is not the full range of a multi-page
document), a successful conversion renders exactly the page containers
`first, ..., last` — that is `last - first + 1` of them, ascending, one
per requested page number even when no block references that page. -/
theorem c4_page_range (d : Document) (file : Option FileContent)
    (dims : Option Dims) (pa : Bool) (first last : ℕ) (ns : List HNode)
    (h1 : 1 ≤ first) (h2 : first ≤ last) (h3 : last ≤ d.totalPages)
    (hpath : d.totalPages = 1 ∨ ¬(first = 1 ∧ last = d.totalPages))
    (hok : textract_to_hocr d file (some first) (some last) dims pa =
      Except.ok ns) :
    pageNums ns = List.range' first (last + 1 - first) := by
  simp only [textract_to_hocr, Option.getD_some] at hok
  split_ifs at hok with hc1 hc2 hc3 hc4 hc5
  · have ht1 : d.totalPages = 1 := by simpa using hc4
    have hf1 : first = 1 := by omega
    have hl1 : last = 1 := by omega
    subst hf1
    subst hl1
    cases hcv : convert_single_page d file dims pa with
    | error e => rw [hcv] at hok; cases hok
    | ok ms =>
      rw [hcv] at hok
      simp only [Except.mapError, Except.ok.injEq] at hok
      subst hok
      simpa using convert_single_page_pages d file dims pa ms hcv
  · exfalso
    have ht1 : d.totalPages ≠ 1 := by simpa using hc4
    simp only [Bool.and_eq_true, beq_iff_eq] at hc5
    rcases hpath with hp | hp
    · exact ht1 hp
    · exact hp hc5
  · cases hcv : extract_page_range d first last file dims pa with
    | error e => rw [hcv] at hok; cases hok
    | ok ms =>
      rw [hcv] at hok
      simp only [Except.mapError, Except.ok.injEq] at hok
      subst hok
      exact extract_page_range_pages d first last file dims pa ms hcv

/-- C4 witness: the request (2, 2) on the three-page `c4wdoc` — a document
with no blocks at all — still renders exactly the one container for
page 2. -/
theorem c4_page_range_witness :
    pageNums c4wout = List.range' 2 (2 + 1 - 2) :=
  c4_page_range c4wdoc none none true 2 2 c4wout (by norm_num) (by norm_num)
    (by norm_num [c4wdoc]) (by norm_num [c4wdoc])
    (by with_unfolding_all rfl)
